import Mathlib

/-!
# Shallow embedding of the guptime monitoring engine

This file embeds the core of the guptime uptime-monitoring service
(`monitor/monitor.go` and the daily-history aggregation of the API layer)
into Lean 4 and proves the testable properties of its specification.

Modelling conventions:
* Go `int64` timestamps are `Int`; Go `float64` latencies and percentages
  are exact rationals `ℚ` (floating-point rounding is abstracted away).
* The SQLite `log_entries` table is a `List LogRow` in insertion (rowid)
  order; `SELECT ... ORDER BY timestamp ASC` is modelled by a stable
  insertion sort on the timestamp key, one deterministic realisation of
  the (tie-unspecified) SQL ordering.
* The SQLite `monitors` table (the registry) is a `List Monitor`; its
  composite primary key `(slug, name)` makes an `INSERT` of a duplicate
  identity fail, which `addMonitorsToDB` logs and skips.
* Wall-clock reads (`time.Now()`) become explicit `now` / `midnight`
  parameters; transaction-commit failure of the storage backend becomes
  an explicit `commitOk : Bool` parameter.
* Local calendar days in the 90-day history are abstracted to fixed
  86400-second windows anchored at the `midnight` parameter, and the
  formatted `YYYY-MM-DD` date string is represented by the day-start
  unix timestamp (the formatting is injective on midnights).
-/

namespace Guptime

/-- A configured monitor: `slug` is the group identifier, `name` the display
name, `url` the probed target (struct `Monitor` in `monitor.go`). -/
structure Monitor where
  slug : String
  name : String
  url  : String
deriving DecidableEq, Repr

/-- One probe result as returned by the query facade
(struct `MonitorLogEntry` in `monitor.go`). -/
structure MonitorLogEntry where
  timestamp : Int
  time : ℚ
  response : String
deriving DecidableEq, Repr

/-- One row of the `log_entries` table: the owning monitor identity plus the
observation fields. -/
structure LogRow where
  monitorSlug : String
  monitorName : String
  timestamp : Int
  time : ℚ
  response : String
deriving DecidableEq, Repr

/-- Project a stored row to the API-facing log entry (the `SELECT timestamp,
time, response` of `GetMonitorChecks`). -/
def LogRow.toEntry (r : LogRow) : MonitorLogEntry :=
  { timestamp := r.timestamp, time := r.time, response := r.response }

/-- Aggregated 24-hour summary (struct `MonitorSummary` in `monitor.go`). -/
structure MonitorSummary where
  currentStatus : String
  uptimePercentage24h : ℚ
  averageResponseTime24h : ℚ
deriving DecidableEq, Repr

/-- The monitoring service state: the in-memory monitor configuration loaded
from `monitors.json` and the persisted `log_entries` table (struct `Service`
in `monitor.go`; the `monitors` registry table is threaded separately where
a claim needs it). -/
structure Service where
  monitorsConfig : List Monitor
  logEntries : List LogRow
deriving DecidableEq, Repr

/-- The configuration-membership check at the top of `GetMonitorSummary` and
`GetMonitorChecks`: scan `s.monitorsConfig` for the `(slug, name)` pair. -/
def isConfigured (s : Service) (slug name : String) : Bool :=
  s.monitorsConfig.any (fun m => m.slug == slug && m.name == name)

/-- The rows of `log_entries` belonging to one monitor identity
(`WHERE monitor_slug = ? AND monitor_name = ?`). -/
def rowsFor (s : Service) (slug name : String) : List LogRow :=
  s.logEntries.filter (fun r => r.monitorSlug == slug && r.monitorName == name)

/-- `ORDER BY timestamp DESC LIMIT 1`: a row of maximal timestamp, or `none`
on an empty row set (modelled as a fold keeping the first-seen maximum). -/
def latestRow (rows : List LogRow) : Option LogRow :=
  rows.foldl
    (fun acc r =>
      match acc with
      | none => some r
      | some b => if b.timestamp < r.timestamp then some r else some b)
    none

/-- The SQL predicate `response LIKE '2%'`: the outcome string starts with
the character `2`. -/
def is2xxLike (resp : String) : Bool :=
  resp.data.take 1 == ['2']

/-- `GetMonitorSummary` of `monitor.go`: fails when the `(slug, name)` pair is
not configured; otherwise the current status is the response of the latest
row (`"No data yet"` when none), and uptime/latency are the SQL aggregates
`COALESCE(AVG(CASE WHEN response LIKE '2%' THEN 100.0 ELSE 0.0 END), 0)` and
`COALESCE(AVG(time), 0)` over rows with `timestamp >= now - 24h`. -/
def GetMonitorSummary (s : Service) (now : Int) (slug name : String) :
    Except String MonitorSummary :=
  if isConfigured s slug name then
    let rows := rowsFor s slug name
    let currentStatus :=
      match latestRow rows with
      | none => "No data yet"
      | some r => r.response
    let twentyFourHoursAgo := now - 24 * 60 * 60
    let window := rows.filter (fun r => decide (twentyFourHoursAgo ≤ r.timestamp))
    let uptime : ℚ :=
      if window.isEmpty then 0
      else (window.map (fun r => if is2xxLike r.response then (100 : ℚ) else 0)).sum
            / (window.length : ℚ)
    let avgTime : ℚ :=
      if window.isEmpty then 0
      else (window.map (fun r => r.time)).sum / (window.length : ℚ)
    .ok { currentStatus := currentStatus,
          uptimePercentage24h := uptime,
          averageResponseTime24h := avgTime }
  else
    .error ("monitor not found in configuration")

/-- The ascending-timestamp order used by `ORDER BY timestamp ASC` on rows. -/
def tsLe (a b : LogRow) : Prop :=
  a.timestamp ≤ b.timestamp

instance : DecidableRel tsLe := fun a b => Int.decLe a.timestamp b.timestamp

instance : IsTotal LogRow tsLe := ⟨fun a b => Int.le_total a.timestamp b.timestamp⟩

instance : IsTrans LogRow tsLe := ⟨fun _ _ _ h h2 => le_trans h h2⟩

/-- `GetMonitorChecks` of `monitor.go`: fails when the `(slug, name)` pair is
not configured; otherwise returns the monitor's rows with
`timestamp >= start AND timestamp <= end`, ordered by ascending timestamp. -/
def GetMonitorChecks (s : Service) (slug name : String) (start fin : Int) :
    Except String (List MonitorLogEntry) :=
  if isConfigured s slug name then
    let rows := (rowsFor s slug name).filter
      (fun r => decide (start ≤ r.timestamp) && decide (r.timestamp ≤ fin))
    .ok ((rows.insertionSort tsLe).map LogRow.toEntry)
  else
    .error ("monitor not found in configuration")

/-- `purgeOldRecords` of `monitor.go`:
`DELETE FROM log_entries WHERE timestamp < ?` with the cutoff timestamp;
returns the surviving table and the number of rows affected. -/
def purgeOldRecords (db : List LogRow) (cutoff : Int) : List LogRow × Nat :=
  (db.filter (fun r => decide (cutoff ≤ r.timestamp)),
   (db.filter (fun r => decide (r.timestamp < cutoff))).length)

/-- The insert loop of `addMonitorsToDB`: starting from the cleared registry,
insert each configured monitor in order; an insert violating the composite
primary key `(slug, name)` fails and is skipped (logged in the source). -/
def insertMonitors (config : List Monitor) : List Monitor :=
  config.foldl
    (fun acc m =>
      if acc.any (fun x => x.slug == m.slug && x.name == m.name) then acc
      else acc ++ [m])
    []

/-- `addMonitorsToDB` of `monitor.go`: inside one transaction, delete all
registry rows and insert the configured monitors; if the transaction cannot
commit (`commitOk = false`) the whole operation fails and the registry is
left unchanged (rollback). Returns the operation result and the registry
state afterwards. -/
def addMonitorsToDB (config registry : List Monitor) (commitOk : Bool) :
    Except String Unit × List Monitor :=
  if commitOk then (.ok (), insertMonitors config)
  else (.error ("failed to commit transaction"), registry)

/-- `Service.Start` of `monitor.go`, restricted to its registry effect: with
an empty configured list it logs a warning and returns success without
touching the registry; otherwise it runs `addMonitorsToDB`. -/
def start (config registry : List Monitor) (commitOk : Bool) :
    Except String Unit × List Monitor :=
  if config.isEmpty then (.ok (), registry)
  else addMonitorsToDB config registry commitOk

/-- The `getStatus` helper of `getSlugHistory` (API layer): classify an
outcome string by its leading bytes — empty is `"unknown"`, first byte `2`
is `"up"`, first byte `4` or `5` is `"down"`, a string whose first five
bytes are `Error` is `"down"`, anything else `"unknown"`. -/
def getStatus (response : String) : String :=
  match response.data with
  | [] => "unknown"
  | c :: rest =>
    if c = '2' then "up"
    else if c = '4' ∨ c = '5' then "down"
    else if (c :: rest).take 5 = "Error".data then "down"
    else "unknown"

/-- The outcome classification in the words of the specification: a string
starting with `"2"` is up; starting with `"4"` or `"5"` is down; starting
with the error prefix `"Error"` is down; every other string is unknown.
Stated independently of `getStatus` to be compared with it. -/
def classifyStatusSpec (r : String) : String :=
  if r.data.take 1 = "2".data then "up"
  else if r.data.take 1 = "4".data ∨ r.data.take 1 = "5".data then "down"
  else if r.data.take 5 = "Error".data then "down"
  else "unknown"

/-- One daily bucket of the 90-day history (`SlugMonitorDailyHistory` in the
API layer); `date` is the day-start unix timestamp standing for the
formatted `YYYY-MM-DD` string. -/
structure DailyBucket where
  date : Int
  uptimePercent : ℚ
  totalChecks : Nat
  upChecks : Nat
  downChecks : Nat
  unknownChecks : Nat
deriving DecidableEq, Repr

/-- The all-zero bucket emitted for a day with no data. -/
def zeroBucket (dayStart : Int) : DailyBucket :=
  { date := dayStart, uptimePercent := 0, totalChecks := 0,
    upChecks := 0, downChecks := 0, unknownChecks := 0 }

/-- The number of seconds in one modelled calendar day. -/
def daySeconds : Int := 86400

/-- The body of `getSlugHistory`'s day loop for day index `i` (0 = today):
query the monitor's checks in `[dayStart, dayStart + 24h]`; on error or when
no checks exist emit the all-zero bucket; otherwise count up/down/unknown
outcomes with `getStatus` and compute the day's uptime percentage. -/
def bucketFor (s : Service) (midnight : Int) (m : Monitor) (i : Nat) :
    DailyBucket :=
  let dayStart := midnight - daySeconds * (i : Int)
  let dayEnd := dayStart + daySeconds
  match GetMonitorChecks s m.slug m.name dayStart dayEnd with
  | .error _ => zeroBucket dayStart
  | .ok checks =>
    if checks.isEmpty then zeroBucket dayStart
    else
      let up := (checks.filter (fun c => getStatus c.response == "up")).length
      let down := (checks.filter (fun c => getStatus c.response == "down")).length
      let unknown := (checks.filter (fun c =>
        !(getStatus c.response == "up") && !(getStatus c.response == "down"))).length
      let total := up + down + unknown
      let uptimePercent : ℚ :=
        if 0 < total then (up : ℚ) / (total : ℚ) * 100 else 0
      { date := dayStart, uptimePercent := uptimePercent, totalChecks := total,
        upChecks := up, downChecks := down, unknownChecks := unknown }

/-- The per-monitor 90-day history of `getSlugHistory`: buckets for day
indices 0..89 (today backwards), then reversed so the oldest day is first. -/
def dailyHistoryFor (s : Service) (midnight : Int) (m : Monitor) :
    List DailyBucket :=
  ((List.range 90).map (bucketFor s midnight m)).reverse

/-- `getSlugHistory` of the API layer: the per-monitor daily history for
every monitor found under the slug, keyed by monitor name. -/
def getSlugHistory (s : Service) (midnight : Int) (monitors : List Monitor) :
    List (String × List DailyBucket) :=
  monitors.map (fun m => (m.name, dailyHistoryFor s midnight m))

/-- The outcome of the single HTTP GET issued by `checkMonitor`: either a
transport-level response carrying the status code, or a transport error
carrying Go's error description. -/
inductive ProbeResult where
  | ok (statusCode : Int)
  | err (msg : String)
deriving DecidableEq, Repr

/-- The `responseCode` computed by `checkMonitor`: on success
`fmt.Sprintf("%d", resp.StatusCode)`; on transport failure
`fmt.Sprintf("Error: %v", err)`. -/
def responseCodeOf : ProbeResult → String
  | .ok code => toString code
  | .err msg => "Error: " ++ msg

/-- The log entry built by `checkMonitor` from one probe: completion
wall-clock timestamp, elapsed milliseconds, and the outcome string. -/
def checkMonitor (now : Int) (ms : ℚ) (res : ProbeResult) : MonitorLogEntry :=
  { timestamp := now, time := ms, response := responseCodeOf res }

/-- The 24-hour aggregation window of `GetMonitorSummary`: the monitor's rows
with `timestamp >= now - 24h`. -/
def window24h (s : Service) (now : Int) (slug name : String) : List LogRow :=
  (rowsFor s slug name).filter (fun r => decide (now - 24 * 60 * 60 ≤ r.timestamp))

deriving instance DecidableEq for Except

/-- A concrete monitor used to instantiate theorems with hypotheses. -/
def sampleMonitor : Monitor := ⟨"g", "n", "u"⟩

/-- A concrete service state — one configured monitor with two stored
observations — used to instantiate theorems with hypotheses. -/
def sampleService : Service :=
  ⟨[sampleMonitor], [⟨"g", "n", 5, 1, "200"⟩, ⟨"g", "n", 9, 2, "503"⟩]⟩

/-! ## Theorems -/

/-- **C7.** The daily-history classification maps every outcome string
exactly as the specification states it: a string starting with `"2"` is up,
one starting with `"4"` or `"5"` is down, one starting with the error
prefix is down, and every other string is unknown. -/
theorem getStatus_matches_spec (r : String) : getStatus r = classifyStatusSpec r := by
  unfold getStatus classifyStatusSpec
  cases hd : r.data with
  | nil => simp
  | cons c rest =>
    by_cases h2 : c = '2'
    · subst h2; simp
    · by_cases h45 : c = '4' ∨ c = '5'
      · have hne : ¬([c] = ['2']) := by simpa using h2
        rcases h45 with h4 | h5
        · subst h4; simp
        · subst h5; simp
      · have hne2 : ¬((c :: rest).take 1 = "2".data) := by
          simpa [List.take] using h2
        have hne45 : ¬((c :: rest).take 1 = "4".data ∨ (c :: rest).take 1 = "5".data) := by
          simpa [List.take] using h45
        simp [h2, h45, hne2, hne45]

/-- **C5.** `purgeOldRecords` deletes exactly the rows with timestamp
strictly below the cutoff: multiplicity of every surviving row is preserved
and rows below the cutoff vanish; no surviving row is older than the cutoff;
it reports the number of deleted rows, which together with the survivors
accounts for the whole table; and a second purge with the same cutoff keeps
the table unchanged and deletes zero rows. -/
theorem purge_exact_idempotent (db : List LogRow) (cutoff : Int) :
    (∀ r : LogRow, (purgeOldRecords db cutoff).1.count r =
        if cutoff ≤ r.timestamp then db.count r else 0) ∧
    (∀ r ∈ (purgeOldRecords db cutoff).1, ¬ r.timestamp < cutoff) ∧
    (purgeOldRecords db cutoff).2 =
      (db.filter (fun r => decide (r.timestamp < cutoff))).length ∧
    (purgeOldRecords db cutoff).1.length + (purgeOldRecords db cutoff).2 = db.length ∧
    (purgeOldRecords (purgeOldRecords db cutoff).1 cutoff).1 =
      (purgeOldRecords db cutoff).1 ∧
    (purgeOldRecords (purgeOldRecords db cutoff).1 cutoff).2 = 0 := by
  have hk : ∀ L : List LogRow, (purgeOldRecords L cutoff).1 =
      L.filter (fun r => decide (cutoff ≤ r.timestamp)) := fun _ => rfl
  have hc : ∀ L : List LogRow, (purgeOldRecords L cutoff).2 =
      (L.filter (fun r => decide (r.timestamp < cutoff))).length := fun _ => rfl
  refine ⟨?_, ?_, hc db, ?_, ?_, ?_⟩
  · intro r
    rw [hk]
    by_cases h : cutoff ≤ r.timestamp
    · rw [if_pos h]
      exact List.count_filter (by simpa using h)
    · rw [if_neg h]
      refine List.count_eq_zero.mpr (fun hmem => ?_)
      have := List.of_mem_filter hmem
      simp at this
      exact h this
  · intro r hmem
    rw [hk] at hmem
    have := List.of_mem_filter hmem
    simp at this
    omega
  · rw [hk, hc]
    induction db with
    | nil => simp
    | cons a l ih =>
      by_cases h : cutoff ≤ a.timestamp
      · have h2 : ¬ a.timestamp < cutoff := by omega
        simp [List.filter_cons, h, h2]
        omega
      · have h2 : a.timestamp < cutoff := by omega
        simp [List.filter_cons, h, h2]
        omega
  · rw [hk db, hk]
    apply List.filter_eq_self.mpr
    intro a ha
    simpa using List.of_mem_filter ha
  · rw [hc, hk db, List.length_eq_zero]
    refine List.filter_eq_nil_iff.mpr (fun a ha => ?_)
    have := List.of_mem_filter ha
    simp at this ⊢
    omega

set_option maxRecDepth 4000 in
/-- The decimal rendering of every valid three-digit HTTP status code is a
three-character string. -/
theorem natStatusLen : ∀ n : Nat, n < 1000 → 100 ≤ n → (toString n).length = 3 := by
  decide

/-- **C8.** The outcome string recorded by `checkMonitor` is the decimal
rendering of the HTTP status code on successful transport, and on transport
failure a descriptive string with the fixed prefix `"Error: "`; every
failure outcome differs from the rendering of every valid status code. -/
theorem checkMonitor_outcomes (now : Int) (ms : ℚ) (res : ProbeResult) :
    (∀ code, res = .ok code → (checkMonitor now ms res).response = toString code) ∧
    (∀ msg, res = .err msg →
        (checkMonitor now ms res).response = "Error: " ++ msg) ∧
    (∀ (code : Int) (msg : String), 100 ≤ code → code ≤ 999 →
        responseCodeOf (.err msg) ≠ responseCodeOf (.ok code)) := by
  refine ⟨?_, ?_, ?_⟩
  · intro code hres; subst hres; rfl
  · intro msg hres; subst hres; rfl
  · intro code msg h1 h2 heq
    have hlen : (responseCodeOf (.ok code)).length = 3 := by
      obtain ⟨n, rfl⟩ := Int.eq_ofNat_of_zero_le (le_trans (by norm_num) h1)
      have hn1 : 100 ≤ n := by exact_mod_cast h1
      have hn2 : n ≤ 999 := by exact_mod_cast h2
      have hrepr : responseCodeOf (.ok (n : Int)) = toString n := rfl
      rw [hrepr]
      exact natStatusLen n (by omega) hn1
    have hlen2 : (responseCodeOf (.err msg)).length = 7 + msg.length := by
      show ("Error: " ++ msg).length = 7 + msg.length
      simp [String.length_append, show "Error: ".length = 7 from rfl]
    rw [heq, hlen] at hlen2
    omega

/-- Witness for **C8**: the concrete probe results `ok 200` and
`err "connection refused"` realise the theorem's three conclusions. -/
theorem checkMonitor_outcomes_witness :
    (checkMonitor 0 0 (.ok 200)).response = toString (200 : Int) ∧
    (checkMonitor 0 0 (.err "connection refused")).response =
      "Error: " ++ "connection refused" ∧
    responseCodeOf (.err "connection refused") ≠ responseCodeOf (.ok 200) := by
  refine ⟨(checkMonitor_outcomes 0 0 (.ok 200)).1 200 rfl, ?_, ?_⟩
  · exact (checkMonitor_outcomes 0 0 (.err "connection refused")).2.1 _ rfl
  · exact (checkMonitor_outcomes 0 0 (.ok 200)).2.2 200 "connection refused"
      (by decide) (by decide)

/-- The fold behind `latestRow`, seeded with a row, yields a row of maximal
timestamp among the seed and the scanned rows. -/
theorem latestRow_foldl (rows : List LogRow) (b : LogRow) :
    ∃ r, rows.foldl
        (fun acc x =>
          match acc with
          | none => some x
          | some c => if c.timestamp < x.timestamp then some x else some c)
        (some b) = some r ∧
      (r = b ∨ r ∈ rows) ∧ b.timestamp ≤ r.timestamp ∧
      ∀ x ∈ rows, x.timestamp ≤ r.timestamp := by
  induction rows generalizing b with
  | nil => exact ⟨b, rfl, Or.inl rfl, le_refl _, by simp⟩
  | cons a l ih =>
    by_cases h : b.timestamp < a.timestamp
    · obtain ⟨r, hfold, hmem, hle, hall⟩ := ih a
      refine ⟨r, ?_, ?_, ?_, ?_⟩
      · simpa [List.foldl_cons, if_pos h] using hfold
      · rcases hmem with rfl | hr
        · exact Or.inr (List.mem_cons_self _ _)
        · exact Or.inr (List.mem_cons_of_mem _ hr)
      · exact le_trans (le_of_lt h) hle
      · intro x hx
        rcases List.mem_cons.mp hx with rfl | hx2
        · exact hle
        · exact hall x hx2
    · obtain ⟨r, hfold, hmem, hle, hall⟩ := ih b
      refine ⟨r, ?_, ?_, hle, ?_⟩
      · simpa [List.foldl_cons, if_neg h] using hfold
      · rcases hmem with rfl | hr
        · exact Or.inl rfl
        · exact Or.inr (List.mem_cons_of_mem _ hr)
      · intro x hx
        rcases List.mem_cons.mp hx with rfl | hx2
        · omega
        · exact hall x hx2

/-- `latestRow` returns `none` exactly on the empty row set, and otherwise a
member row whose timestamp is maximal. -/
theorem latestRow_spec (rows : List LogRow) :
    (rows = [] → latestRow rows = none) ∧
    (rows ≠ [] → ∃ r, latestRow rows = some r ∧ r ∈ rows ∧
      ∀ x ∈ rows, x.timestamp ≤ r.timestamp) := by
  constructor
  · intro h; subst h; rfl
  · intro h
    cases rows with
    | nil => exact absurd rfl h
    | cons a l =>
      obtain ⟨r, hfold, hmem, hle, hall⟩ := latestRow_foldl l a
      refine ⟨r, ?_, ?_, ?_⟩
      · simpa [latestRow, List.foldl_cons] using hfold
      · rcases hmem with rfl | hr
        · exact List.mem_cons_self _ _
        · exact List.mem_cons_of_mem _ hr
      · intro x hx
        rcases List.mem_cons.mp hx with rfl | hx2
        · exact hle
        · exact hall x hx2

/-- **C1.** For every configured `(group, name)` pair, `GetMonitorSummary`
succeeds; its `CurrentStatus` is the sentinel `"No data yet"` when the pair
has no observations, and otherwise the outcome string of an observation of
that pair whose timestamp is maximal. -/
theorem summary_current_status (s : Service) (now : Int) (slug name : String)
    (h : isConfigured s slug name = true) :
    ∃ summary, GetMonitorSummary s now slug name = .ok summary ∧
      ((rowsFor s slug name = [] ∧ summary.currentStatus = "No data yet") ∨
       (∃ r ∈ rowsFor s slug name, summary.currentStatus = r.response ∧
          ∀ x ∈ rowsFor s slug name, x.timestamp ≤ r.timestamp)) := by
  refine ⟨_, by rw [GetMonitorSummary, if_pos h], ?_⟩
  by_cases hrows : rowsFor s slug name = []
  · left
    refine ⟨hrows, ?_⟩
    have hnone : latestRow (rowsFor s slug name) = none := (latestRow_spec _).1 hrows
    simp [hnone]
  · right
    obtain ⟨r, hsome, hmem, hall⟩ := (latestRow_spec _).2 hrows
    exact ⟨r, hmem, by simp [hsome], hall⟩

/-- Witness for **C1**: a concrete service with one configured monitor and
two stored observations realises the theorem. -/
theorem summary_current_status_witness :
    isConfigured ⟨[⟨"g", "n", "u"⟩],
        [⟨"g", "n", 5, 1, "200"⟩, ⟨"g", "n", 9, 2, "503"⟩]⟩ "g" "n" = true ∧
    (∃ summary,
        GetMonitorSummary ⟨[⟨"g", "n", "u"⟩],
          [⟨"g", "n", 5, 1, "200"⟩, ⟨"g", "n", 9, 2, "503"⟩]⟩ 10 "g" "n" = .ok summary ∧
      ((rowsFor ⟨[⟨"g", "n", "u"⟩],
          [⟨"g", "n", 5, 1, "200"⟩, ⟨"g", "n", 9, 2, "503"⟩]⟩ "g" "n" = [] ∧
        summary.currentStatus = "No data yet") ∨
       (∃ r ∈ rowsFor ⟨[⟨"g", "n", "u"⟩],
            [⟨"g", "n", 5, 1, "200"⟩, ⟨"g", "n", 9, 2, "503"⟩]⟩ "g" "n",
          summary.currentStatus = r.response ∧
          ∀ x ∈ rowsFor ⟨[⟨"g", "n", "u"⟩],
              [⟨"g", "n", 5, 1, "200"⟩, ⟨"g", "n", 9, 2, "503"⟩]⟩ "g" "n",
            x.timestamp ≤ r.timestamp))) :=
  ⟨by decide,
   summary_current_status ⟨[⟨"g", "n", "u"⟩],
     [⟨"g", "n", 5, 1, "200"⟩, ⟨"g", "n", 9, 2, "503"⟩]⟩ 10 "g" "n" (by decide)⟩

/-- The sum of the per-row 0/100 uptime indicators equals 100 times the
number of rows whose outcome starts with `2`. -/
theorem indicator_sum_eq (l : List LogRow) :
    (l.map (fun r => if is2xxLike r.response then (100 : ℚ) else 0)).sum =
      100 * ((l.filter (fun r => is2xxLike r.response)).length : ℚ) := by
  induction l with
  | nil => simp
  | cons a t ih =>
    by_cases h : is2xxLike a.response = true
    · simp [List.filter_cons, h, ih]
      ring
    · have hb : is2xxLike a.response = false := by simpa using h
      simp [List.filter_cons, hb, ih]

/-- The per-row uptime indicators are nonnegative. -/
theorem indicator_sum_nonneg (l : List LogRow) :
    0 ≤ (l.map (fun r => if is2xxLike r.response then (100 : ℚ) else 0)).sum := by
  refine List.sum_nonneg ?_
  intro x hx
  obtain ⟨r, _, rfl⟩ := List.mem_map.mp hx
  split <;> norm_num

/-- The per-row uptime indicators sum to at most 100 per row. -/
theorem indicator_sum_le (l : List LogRow) :
    (l.map (fun r => if is2xxLike r.response then (100 : ℚ) else 0)).sum ≤
      100 * (l.length : ℚ) := by
  induction l with
  | nil => simp
  | cons a t ih =>
    simp only [List.map_cons, List.sum_cons, List.length_cons]
    push_cast
    have hb : (if is2xxLike a.response then (100 : ℚ) else 0) ≤ 100 := by
      split <;> norm_num
    linarith

/-- Unfolding of the two aggregate fields of a successful
`GetMonitorSummary`: each is the SQL average over the 24-hour window, with
the `COALESCE` default 0 on an empty window. -/
theorem summary_ok_fields (s : Service) (now : Int) (slug name : String)
    (summary : MonitorSummary)
    (h : GetMonitorSummary s now slug name = .ok summary) :
    summary.uptimePercentage24h =
      (if (window24h s now slug name).isEmpty then 0
       else ((window24h s now slug name).map
              (fun r => if is2xxLike r.response then (100 : ℚ) else 0)).sum /
            ((window24h s now slug name).length : ℚ)) ∧
    summary.averageResponseTime24h =
      (if (window24h s now slug name).isEmpty then 0
       else ((window24h s now slug name).map (fun r => r.time)).sum /
            ((window24h s now slug name).length : ℚ)) := by
  by_cases hc : isConfigured s slug name = true
  · rw [GetMonitorSummary, if_pos hc] at h
    injection h with h
    subst h
    exact ⟨rfl, rfl⟩
  · rw [GetMonitorSummary, if_neg hc] at h
    exact absurd h (by simp)

/-- **C2.** For a registered monitor, `UptimePercentage24h` equals the share
of observations in the 24-hour window whose outcome is a 2xx status times
100, and `AverageResponseTime24h` equals the mean of their `time` field;
both are 0 on an empty window. -/
theorem summary_24h_aggregates (s : Service) (now : Int) (slug name : String)
    (summary : MonitorSummary)
    (h : GetMonitorSummary s now slug name = .ok summary) :
    (window24h s now slug name = [] →
      summary.uptimePercentage24h = 0 ∧ summary.averageResponseTime24h = 0) ∧
    (window24h s now slug name ≠ [] →
      summary.uptimePercentage24h =
        (((window24h s now slug name).filter
            (fun r => is2xxLike r.response)).length : ℚ) /
          ((window24h s now slug name).length : ℚ) * 100 ∧
      summary.averageResponseTime24h =
        ((window24h s now slug name).map (fun r => r.time)).sum /
          ((window24h s now slug name).length : ℚ)) := by
  obtain ⟨hu, ha⟩ := summary_ok_fields s now slug name summary h
  constructor
  · intro hw
    have he : (window24h s now slug name).isEmpty = true := List.isEmpty_iff.mpr hw
    rw [hu, ha, if_pos he, if_pos he]
    exact ⟨rfl, rfl⟩
  · intro hw
    have he : (window24h s now slug name).isEmpty = false :=
      List.isEmpty_eq_false.mpr hw
    rw [hu, ha, if_neg (by simp [he]), if_neg (by simp [he])]
    refine ⟨?_, rfl⟩
    rw [indicator_sum_eq]
    ring

/-- Witness for **C2**: at a lookback instant far past both stored
observations the 24-hour window is empty and both aggregates are 0. -/
theorem summary_24h_aggregates_witness :
    GetMonitorSummary sampleService 1000000 "g" "n" = .ok ⟨"503", 0, 0⟩ ∧
    window24h sampleService 1000000 "g" "n" = [] ∧
    (⟨"503", 0, 0⟩ : MonitorSummary).uptimePercentage24h = 0 ∧
    (⟨"503", 0, 0⟩ : MonitorSummary).averageResponseTime24h = 0 := by
  have h : GetMonitorSummary sampleService 1000000 "g" "n" = .ok ⟨"503", 0, 0⟩ := rfl
  have hw : window24h sampleService 1000000 "g" "n" = [] := by decide
  have hconc :=
    (summary_24h_aggregates sampleService 1000000 "g" "n" ⟨"503", 0, 0⟩ h).1 hw
  exact ⟨h, hw, hconc.1, hconc.2⟩

/-- **C10.** The `UptimePercentage24h` of every successful summary lies in
the closed interval `[0, 100]`. -/
theorem summary_uptime_bounds (s : Service) (now : Int) (slug name : String)
    (summary : MonitorSummary)
    (h : GetMonitorSummary s now slug name = .ok summary) :
    0 ≤ summary.uptimePercentage24h ∧ summary.uptimePercentage24h ≤ 100 := by
  obtain ⟨hu, _⟩ := summary_ok_fields s now slug name summary h
  rw [hu]
  by_cases he : (window24h s now slug name).isEmpty = true
  · rw [if_pos he]
    norm_num
  · rw [if_neg he]
    have hne : window24h s now slug name ≠ [] :=
      fun hnil => he (List.isEmpty_iff.mpr hnil)
    have hlen : 0 < ((window24h s now slug name).length : ℚ) := by
      have := List.length_pos.mpr hne
      exact_mod_cast this
    constructor
    · exact div_nonneg (indicator_sum_nonneg _) (le_of_lt hlen)
    · rw [div_le_iff₀ hlen]
      exact indicator_sum_le _

/-- Witness for **C10**: the bounds hold for the concrete summary of the
sample service with an empty 24-hour window. -/
theorem summary_uptime_bounds_witness :
    GetMonitorSummary sampleService 1000000 "g" "n" = .ok ⟨"503", 0, 0⟩ ∧
    0 ≤ (⟨"503", 0, 0⟩ : MonitorSummary).uptimePercentage24h ∧
    (⟨"503", 0, 0⟩ : MonitorSummary).uptimePercentage24h ≤ 100 := by
  have h : GetMonitorSummary sampleService 1000000 "g" "n" = .ok ⟨"503", 0, 0⟩ := rfl
  have hb := summary_uptime_bounds sampleService 1000000 "g" "n" ⟨"503", 0, 0⟩ h
  exact ⟨h, hb.1, hb.2⟩

/-- **C9.** For a configured monitor, a time range containing none of its
observations makes `GetMonitorChecks` succeed with the empty list; a
NotFound error arises only from an unknown `(group, name)` identity. -/
theorem checks_empty_range_ok (s : Service) (slug name : String) (t0 t1 : Int) :
    (isConfigured s slug name = true →
      (rowsFor s slug name).filter
        (fun r => decide (t0 ≤ r.timestamp) && decide (r.timestamp ≤ t1)) = [] →
      GetMonitorChecks s slug name t0 t1 = .ok []) ∧
    (isConfigured s slug name = false →
      GetMonitorChecks s slug name t0 t1 =
        .error "monitor not found in configuration") := by
  constructor
  · intro hc hf
    rw [GetMonitorChecks, if_pos hc]
    simp [hf]
  · intro hc
    rw [GetMonitorChecks, if_neg (by simp [hc])]

/-- Witness for **C9**: the sample service holds no observation in the range
`[100, 200]`, and the query returns the empty list without an error. -/
theorem checks_empty_range_ok_witness :
    isConfigured sampleService "g" "n" = true ∧
    (rowsFor sampleService "g" "n").filter
      (fun r => decide ((100 : Int) ≤ r.timestamp) &&
        decide (r.timestamp ≤ (200 : Int))) = [] ∧
    GetMonitorChecks sampleService "g" "n" 100 200 = .ok [] := by
  refine ⟨by decide, by decide, ?_⟩
  exact (checks_empty_range_ok sampleService "g" "n" 100 200).1 (by decide) (by decide)

/-- Counterexample to **C4** as stated: two observations of the same
configured monitor share timestamp 5, so the returned list is sorted only
non-strictly — it is not strictly ascending in the timestamp. -/
theorem checks_not_strictly_sorted :
    ∃ l, GetMonitorChecks ⟨[⟨"g", "n", "u"⟩],
        [⟨"g", "n", 5, 1, "200"⟩, ⟨"g", "n", 5, 2, "500"⟩]⟩ "g" "n" 0 10 = .ok l ∧
      ¬ List.Pairwise (fun a b : MonitorLogEntry => a.timestamp < b.timestamp) l := by
  refine ⟨[⟨5, 1, "200"⟩, ⟨5, 2, "500"⟩], by decide, ?_⟩
  intro hp
  have := List.rel_of_pairwise_cons hp (List.mem_cons_self _ _)
  simp at this

/-- **C4 (amended).** For a configured monitor, `GetMonitorChecks` returns
exactly the observations with `t0 ≤ timestamp ≤ t1` (a permutation of the
inclusive-range filter), sorted in non-decreasing (not necessarily strict)
timestamp order, every element within the inclusive bounds; it fails with
NotFound exactly on an unknown identity, and as a pure function of the
store it is idempotent. -/
theorem checks_range_sorted (s : Service) (slug name : String) (t0 t1 : Int) :
    (isConfigured s slug name = true →
      ∃ l, GetMonitorChecks s slug name t0 t1 = .ok l ∧
        List.Pairwise (fun a b : MonitorLogEntry => a.timestamp ≤ b.timestamp) l ∧
        l.Perm (((rowsFor s slug name).filter
          (fun r => decide (t0 ≤ r.timestamp) && decide (r.timestamp ≤ t1))).map
            LogRow.toEntry) ∧
        (∀ e ∈ l, t0 ≤ e.timestamp ∧ e.timestamp ≤ t1)) ∧
    (isConfigured s slug name = false →
      GetMonitorChecks s slug name t0 t1 =
        .error "monitor not found in configuration") ∧
    GetMonitorChecks s slug name t0 t1 = GetMonitorChecks s slug name t0 t1 := by
  refine ⟨?_, ?_, rfl⟩
  · intro hc
    refine ⟨_, by rw [GetMonitorChecks, if_pos hc], ?_, ?_, ?_⟩
    · exact List.pairwise_map.mpr (List.sorted_insertionSort tsLe _)
    · exact List.Perm.map LogRow.toEntry (List.perm_insertionSort tsLe _)
    · intro e he
      obtain ⟨r, hr, rfl⟩ := List.mem_map.mp he
      have hrf : r ∈ (rowsFor s slug name).filter
          (fun r => decide (t0 ≤ r.timestamp) && decide (r.timestamp ≤ t1)) :=
        List.mem_insertionSort tsLe |>.mp hr
      have := List.of_mem_filter hrf
      simp at this
      exact this
  · intro hc
    rw [GetMonitorChecks, if_neg (by simp [hc])]

/-- Witness for the amended **C4**: the sample service realises the
configured branch of the theorem at the range `[0, 10]`. -/
theorem checks_range_sorted_witness :
    isConfigured sampleService "g" "n" = true ∧
    (∃ l, GetMonitorChecks sampleService "g" "n" 0 10 = .ok l ∧
      List.Pairwise (fun a b : MonitorLogEntry => a.timestamp ≤ b.timestamp) l ∧
      l.Perm (((rowsFor sampleService "g" "n").filter
        (fun r => decide ((0 : Int) ≤ r.timestamp) &&
          decide (r.timestamp ≤ (10 : Int)))).map LogRow.toEntry) ∧
      (∀ e ∈ l, 0 ≤ e.timestamp ∧ e.timestamp ≤ 10)) :=
  ⟨by decide, (checks_range_sorted sampleService "g" "n" 0 10).1 (by decide)⟩

/-- The insert loop of `addMonitorsToDB` appends every configured monitor
when the accumulator holds none of their identities and the configured
identities are pairwise distinct. -/
theorem insertMonitors_foldl (config : List Monitor) :
    ∀ acc : List Monitor,
      (∀ m ∈ config,
        acc.any (fun x => x.slug == m.slug && x.name == m.name) = false) →
      (config.map (fun m => (m.slug, m.name))).Nodup →
      config.foldl
        (fun acc m =>
          if acc.any (fun x => x.slug == m.slug && x.name == m.name) then acc
          else acc ++ [m]) acc = acc ++ config := by
  induction config with
  | nil =>
    intro acc _ _
    simp
  | cons c rest ih =>
    intro acc hdisj hnodup
    have hc : acc.any (fun x => x.slug == c.slug && x.name == c.name) = false :=
      hdisj c (List.mem_cons_self _ _)
    rw [List.foldl_cons, if_neg (by simp [hc])]
    rw [List.map_cons] at hnodup
    have hcons := List.nodup_cons.mp hnodup
    have hnodup2 : (rest.map (fun m => (m.slug, m.name))).Nodup := hcons.2
    have hkey : ∀ m ∈ rest, ¬(c.slug = m.slug ∧ c.name = m.name) := by
      intro m hm heq
      have hmem : (c.slug, c.name) ∈ rest.map (fun m => (m.slug, m.name)) := by
        have heq2 : (c.slug, c.name) = (m.slug, m.name) := by
          rw [heq.1, heq.2]
        rw [heq2]
        exact List.mem_map_of_mem _ hm
      exact hcons.1 hmem
    have hdisj2 : ∀ m ∈ rest,
        (acc ++ [c]).any (fun x => x.slug == m.slug && x.name == m.name) = false := by
      intro m hm
      rw [List.any_append]
      have h1 : acc.any (fun x => x.slug == m.slug && x.name == m.name) = false :=
        hdisj m (List.mem_cons_of_mem _ hm)
      have h2 : ([c].any (fun x => x.slug == m.slug && x.name == m.name)) = false := by
        simp only [List.any_cons, List.any_nil, Bool.or_false]
        have := hkey m hm
        simp only [Bool.and_eq_false_iff]
        by_cases hs : c.slug = m.slug
        · right
          simp only [beq_eq_false_iff_ne, ne_eq]
          intro hn
          exact this ⟨hs, hn⟩
        · left
          simp only [beq_eq_false_iff_ne, ne_eq]
          exact hs
      rw [h1, h2]
      rfl
    rw [ih (acc ++ [c]) hdisj2 hnodup2]
    simp

/-- With pairwise-distinct identities no insert hits the primary key, so the
rebuilt registry is exactly the configured list. -/
theorem insertMonitors_eq (config : List Monitor)
    (h : (config.map (fun m => (m.slug, m.name))).Nodup) :
    insertMonitors config = config := by
  have := insertMonitors_foldl config [] (by simp) h
  simpa [insertMonitors] using this

/-- Counterexample to **C3** as stated: with an empty configured list,
`Start` succeeds without touching the registry, so the old registry row
survives and the registry does not equal the (empty) Config Source list. -/
theorem start_empty_config_keeps_registry :
    (start [] [⟨"g", "n", "u"⟩] true).1 = .ok () ∧
    (start [] [⟨"g", "n", "u"⟩] true).2 ≠ ([] : List Monitor) :=
  ⟨rfl, by decide⟩

/-- **C3 (amended).** For a nonempty configured list with pairwise-distinct
`(group, name)` identities, startup replacement is all-or-nothing and
complete: if the transaction commits, `Start` succeeds and the registry
afterwards is exactly the configured list; if it cannot commit, the whole
operation fails and the registry is unchanged. (With an empty configured
list `Start` succeeds while leaving the registry untouched.) -/
theorem start_replaces_registry (config registry : List Monitor)
    (hne : config ≠ [])
    (hnodup : (config.map (fun m => (m.slug, m.name))).Nodup) :
    start config registry true = (.ok (), config) ∧
    start config registry false =
      (.error "failed to commit transaction", registry) := by
  have hie : config.isEmpty = false := List.isEmpty_eq_false.mpr hne
  constructor
  · rw [start, if_neg (by simp [hie]), addMonitorsToDB, if_pos rfl,
      insertMonitors_eq config hnodup]
  · rw [start, if_neg (by simp [hie])]
    rfl

/-- Witness for the amended **C3**: a one-monitor configuration replaces a
stale registry row on commit and leaves it in place on commit failure. -/
theorem start_replaces_registry_witness :
    ([⟨"g", "n", "u"⟩] : List Monitor) ≠ [] ∧
    start [⟨"g", "n", "u"⟩] [⟨"old", "o", "x"⟩] true = (.ok (), [⟨"g", "n", "u"⟩]) ∧
    start [⟨"g", "n", "u"⟩] [⟨"old", "o", "x"⟩] false =
      (.error "failed to commit transaction", [⟨"old", "o", "x"⟩]) := by
  refine ⟨by decide, ?_⟩
  exact start_replaces_registry [⟨"g", "n", "u"⟩] [⟨"old", "o", "x"⟩]
    (by decide) (by decide)

/-- Every daily bucket carries the day-start date of its day index. -/
theorem bucketFor_date (s : Service) (midnight : Int) (m : Monitor) (i : Nat) :
    (bucketFor s midnight m i).date = midnight - daySeconds * (i : Int) := by
  simp only [bucketFor]
  split
  · rfl
  · split
    · rfl
    · rfl

/-- In every daily bucket the up, down and unknown counts sum to the total. -/
theorem bucketFor_counts (s : Service) (midnight : Int) (m : Monitor) (i : Nat) :
    (bucketFor s midnight m i).upChecks + (bucketFor s midnight m i).downChecks +
      (bucketFor s midnight m i).unknownChecks =
      (bucketFor s midnight m i).totalChecks := by
  simp only [bucketFor]
  split
  · rfl
  · split
    · rfl
    · rfl

/-- A daily bucket with zero total checks reports 0% uptime. -/
theorem bucketFor_uptime_zero (s : Service) (midnight : Int) (m : Monitor) (i : Nat) :
    (bucketFor s midnight m i).totalChecks = 0 →
    (bucketFor s midnight m i).uptimePercent = 0 := by
  simp only [bucketFor]
  split
  · intro _
    rfl
  · split
    · intro _
      rfl
    · intro h
      simp only at h ⊢
      rw [if_neg (by omega)]

/-- A day whose check query returns no observations produces the all-zero
bucket for that day. -/
theorem bucketFor_empty (s : Service) (midnight : Int) (m : Monitor) (i : Nat)
    (h : GetMonitorChecks s m.slug m.name (midnight - daySeconds * (i : Int))
        (midnight - daySeconds * (i : Int) + daySeconds) = .ok []) :
    bucketFor s midnight m i = zeroBucket (midnight - daySeconds * (i : Int)) := by
  simp only [bucketFor]
  rw [h]
  rfl

/-- **C6.** The per-monitor daily history has exactly 90 buckets in strictly
increasing date order (oldest first); in every bucket the up, down and
unknown counts sum to the total and the uptime percentage is 0 when the
total is 0; and a day in range with zero observations is still present as
the all-zero bucket for its date rather than being omitted. -/
theorem daily_history_shape (s : Service) (midnight : Int) (m : Monitor) :
    (dailyHistoryFor s midnight m).length = 90 ∧
    List.Pairwise (fun a b : DailyBucket => a.date < b.date)
      (dailyHistoryFor s midnight m) ∧
    (∀ b ∈ dailyHistoryFor s midnight m,
      b.upChecks + b.downChecks + b.unknownChecks = b.totalChecks ∧
      (b.totalChecks = 0 → b.uptimePercent = 0)) ∧
    (∀ i : Nat, i < 90 →
      GetMonitorChecks s m.slug m.name (midnight - daySeconds * (i : Int))
          (midnight - daySeconds * (i : Int) + daySeconds) = .ok [] →
      bucketFor s midnight m i = zeroBucket (midnight - daySeconds * (i : Int)) ∧
      bucketFor s midnight m i ∈ dailyHistoryFor s midnight m) := by
  refine ⟨?_, ?_, ?_, ?_⟩
  · simp [dailyHistoryFor]
  · rw [dailyHistoryFor, List.pairwise_reverse, List.pairwise_map]
    refine (List.pairwise_lt_range 90).imp ?_
    intro i j hij
    rw [bucketFor_date, bucketFor_date, daySeconds]
    have : (i : Int) < (j : Int) := by exact_mod_cast hij
    omega
  · intro b hb
    rw [dailyHistoryFor, List.mem_reverse] at hb
    obtain ⟨i, _, rfl⟩ := List.mem_map.mp hb
    exact ⟨bucketFor_counts s midnight m i, bucketFor_uptime_zero s midnight m i⟩
  · intro i hi hq
    refine ⟨bucketFor_empty s midnight m i hq, ?_⟩
    rw [dailyHistoryFor, List.mem_reverse]
    exact List.mem_map_of_mem _ (List.mem_range.mpr hi)

/-- Witness for **C6**: the sample service holds no observation on the day
at index 0 anchored at midnight 1000000, so that day appears as the
all-zero bucket inside the 90-bucket history. -/
theorem daily_history_shape_witness :
    (0 : Nat) < 90 ∧
    GetMonitorChecks sampleService sampleMonitor.slug sampleMonitor.name
      (1000000 - daySeconds * ((0 : Nat) : Int))
      (1000000 - daySeconds * ((0 : Nat) : Int) + daySeconds) = .ok [] ∧
    (bucketFor sampleService 1000000 sampleMonitor 0 =
      zeroBucket (1000000 - daySeconds * ((0 : Nat) : Int)) ∧
     bucketFor sampleService 1000000 sampleMonitor 0 ∈
      dailyHistoryFor sampleService 1000000 sampleMonitor) := by
  have hq : GetMonitorChecks sampleService sampleMonitor.slug sampleMonitor.name
      (1000000 - daySeconds * ((0 : Nat) : Int))
      (1000000 - daySeconds * ((0 : Nat) : Int) + daySeconds) = .ok [] := by decide
  exact ⟨by decide, hq,
    (daily_history_shape sampleService 1000000 sampleMonitor).2.2.2 0 (by decide) hq⟩

end Guptime
